import Mathlib

/-!
Shallow embedding of `src/main.py` (Art Intelligence Suite) for checking the
specification's claims.  Python dictionaries become association lists over a
small value type, external HTTP / model calls become explicit `Except`-valued
inputs, and the `re.sub`-based reasoning removal in `generate_chat_response`
is embedded as a leftmost-match substring-removal function on `List Char`.
-/

/-- Values stored in the Python dictionaries that `main.py` passes around:
strings, `None`, lists of strings (`style_titles`), and integers (ids). -/
inductive PyVal where
  | str (s : String)
  | pnone
  | strList (l : List String)
  | num (n : Int)
deriving DecidableEq, Repr

/-- Python dict with string keys, as an association list (insertion order). -/
abbrev Dict := List (String × PyVal)

/-- Lookup `d[k]` as an `Option`: `none` means the key is absent. -/
def dictGet (d : Dict) (k : String) : Option PyVal :=
  match d with
  | [] => Option.none
  | (k', v) :: rest => if k' = k then some v else dictGet rest k

/-- Python `d.get(k, default)`: the stored value when the key is present
(even if that value is `None`), otherwise the default. -/
def dictGetD (d : Dict) (k : String) (default : PyVal) : PyVal :=
  (dictGet d k).getD default

/-- Python subscript `d[k]`, which raises `KeyError` when the key is absent. -/
def pySubscript (d : Dict) (k : String) : Except String PyVal :=
  match dictGet d k with
  | some v => Except.ok v
  | Option.none => Except.error ("KeyError: " ++ k)

/-! ## Reasoning-segment removal (`generate_chat_response`, main.py lines 226-228)

`re.sub(r'<think>.*?</think>', '', full_response, flags=re.DOTALL).strip()`:
scan left to right; a match starts at the leftmost occurrence of the literal
`<think>` and ends at the earliest occurrence of the literal `</think>` at or
after the end of that `<think>` (lazy `.*?` under DOTALL); every
non-overlapping match is removed; finally surrounding whitespace is stripped.
-/

/-- The literal start marker `<think>`. -/
def thinkOpen : List Char := ['<', 't', 'h', 'i', 'n', 'k', '>']

/-- The literal end marker `</think>`. -/
def thinkClose : List Char := ['<', '/', 't', 'h', 'i', 'n', 'k', '>']

/-- Leftmost occurrence search: split `s` as `pre ++ pat ++ post` with `pre`
shortest, returning `(pre, post)`, or `none` when `pat` does not occur.
(For the nonempty patterns used here this is exactly Python's leftmost
regex match of a literal.) -/
def splitFirst (pat : List Char) : List Char → Option (List Char × List Char)
  | [] => Option.none
  | c :: cs =>
    if (c :: cs).take pat.length = pat then
      some ([], (c :: cs).drop pat.length)
    else
      match splitFirst pat cs with
      | some (p, q) => some (c :: p, q)
      | Option.none => Option.none

/-- Does `pat` occur as a contiguous substring of `s`? -/
def occursB (pat s : List Char) : Bool :=
  (splitFirst pat s).isSome

theorem splitFirst_eq_append {pat : List Char} :
    ∀ {s p q : List Char}, splitFirst pat s = some (p, q) → s = p ++ pat ++ q := by
  intro s
  induction s with
  | nil => intro p q h; simp [splitFirst] at h
  | cons c cs ih =>
    intro p q h
    by_cases hc : (c :: cs).take pat.length = pat
    · simp [splitFirst, hc] at h
      obtain ⟨hp, hq⟩ := h
      subst hp; subst hq
      conv_lhs => rw [← List.take_append_drop pat.length (c :: cs)]
      rw [hc]; simp
    · simp [splitFirst, hc] at h
      cases hm : splitFirst pat cs with
      | none => rw [hm] at h; simp at h
      | some pq =>
        obtain ⟨p', q'⟩ := pq
        rw [hm] at h; simp at h
        obtain ⟨hp, hq⟩ := h
        subst hp; subst hq
        have := ih hm
        simp [this]

theorem splitFirst_isSome_of_append {pat : List Char} (hpat : pat ≠ []) :
    ∀ (a b : List Char), (splitFirst pat (a ++ pat ++ b)).isSome = true := by
  intro a
  induction a with
  | nil =>
    intro b
    cases pat with
    | nil => exact absurd rfl hpat
    | cons p pt =>
      have : ((p :: pt) ++ b).take (p :: pt).length = p :: pt := List.take_left _ _
      simp only [List.nil_append]
      rw [show (p :: pt) ++ b = p :: (pt ++ b) by rfl] at this ⊢
      simp [splitFirst, this]
  | cons x a' ih =>
    intro b
    rw [show (x :: a') ++ pat ++ b = x :: (a' ++ pat ++ b) by rfl]
    simp only [splitFirst]
    by_cases hc : (x :: (a' ++ pat ++ b)).take pat.length = pat
    · rw [if_pos hc]; rfl
    · rw [if_neg hc]
      have hi := ih b
      cases hm : splitFirst pat (a' ++ pat ++ b) with
      | none => rw [hm] at hi; simp at hi
      | some pq => obtain ⟨p', q'⟩ := pq; rfl

theorem occursB_of_append {pat a b s : List Char} (hpat : pat ≠ [])
    (h : s = a ++ pat ++ b) : occursB pat s = true := by
  subst h; exact splitFirst_isSome_of_append hpat a b

theorem occursB_cons {pat l : List Char} (x : Char) (hpat : pat ≠ [])
    (h : occursB pat l = true) : occursB pat (x :: l) = true := by
  unfold occursB at h
  cases hm : splitFirst pat l with
  | none => rw [hm] at h; simp at h
  | some pq =>
    obtain ⟨p, q⟩ := pq
    have hl := splitFirst_eq_append hm
    exact occursB_of_append hpat (by rw [hl]; rfl : x :: l = (x :: p) ++ pat ++ q)

theorem dropLast_cons_of_ne_nil {α : Type} (x : α) {l : List α} (h : l ≠ []) :
    (x :: l).dropLast = x :: l.dropLast := by
  cases l with
  | nil => exact absurd rfl h
  | cons y ys => rfl

/-- Key search lemma: when the pattern does not occur strictly before the
displayed occurrence (equivalently, not inside `(pre ++ pat).dropLast`),
`splitFirst` finds exactly the displayed split. -/
theorem splitFirst_at {pat : List Char} (hpat : pat ≠ []) :
    ∀ (pre post : List Char),
      occursB pat ((pre ++ pat).dropLast) = false →
      splitFirst pat (pre ++ pat ++ post) = some (pre, post) := by
  intro pre
  induction pre with
  | nil =>
    intro post _
    cases pat with
    | nil => exact absurd rfl hpat
    | cons p pt =>
      have ht : ((p :: pt) ++ post).take (p :: pt).length = p :: pt := List.take_left _ _
      simp only [List.nil_append]
      rw [show (p :: pt) ++ post = p :: (pt ++ post) by rfl] at ht ⊢
      simp only [splitFirst, ht, if_true]
      rw [show p :: (pt ++ post) = (p :: pt) ++ post by rfl, List.drop_left]
  | cons x pre' ih =>
    intro post h
    have hne : pre' ++ pat ≠ [] := by
      cases pat with
      | nil => exact absurd rfl hpat
      | cons p pt => simp
    have hdrop : ((x :: pre') ++ pat).dropLast = x :: (pre' ++ pat).dropLast := by
      rw [show (x :: pre') ++ pat = x :: (pre' ++ pat) by rfl]
      exact dropLast_cons_of_ne_nil x hne
    rw [show (x :: pre') ++ pat ++ post = x :: (pre' ++ pat ++ post) by rfl]
    by_cases hc : (x :: (pre' ++ pat ++ post)).take pat.length = pat
    · exfalso
      have hlen : pat.length ≤ (x :: (pre' ++ pat).dropLast).length := by
        rw [List.length_cons, List.length_dropLast, List.length_append]
        have hplen : 1 ≤ pat.length := by
          cases pat with
          | nil => exact absurd rfl hpat
          | cons p pt => simp
        omega
      have hsplit : x :: (pre' ++ pat ++ post)
          = (x :: (pre' ++ pat).dropLast) ++ ((pre' ++ pat).getLast hne :: post) := by
        rw [show (x :: (pre' ++ pat).dropLast) ++ ((pre' ++ pat).getLast hne :: post)
            = x :: (((pre' ++ pat).dropLast ++ [(pre' ++ pat).getLast hne]) ++ post) by simp]
        rw [List.dropLast_append_getLast hne]
      have hpref : (x :: (pre' ++ pat).dropLast).take pat.length = pat := by
        conv_rhs => rw [← hc]
        rw [hsplit, List.take_append_of_le_length hlen]
      have : occursB pat (x :: (pre' ++ pat).dropLast) = true := by
        apply occursB_of_append hpat
          (a := []) (b := (x :: (pre' ++ pat).dropLast).drop pat.length)
        conv_lhs => rw [← List.take_append_drop pat.length (x :: (pre' ++ pat).dropLast)]
        rw [hpref]; rfl
      rw [hdrop] at h; rw [this] at h; exact Bool.noConfusion h
    · simp only [splitFirst, hc, if_false]
      have h' : occursB pat ((pre' ++ pat).dropLast) = false := by
        by_contra hcon
        have htrue : occursB pat ((pre' ++ pat).dropLast) = true := by
          cases hq : occursB pat ((pre' ++ pat).dropLast) with
          | false => exact absurd hq hcon
          | true => rfl
        have := occursB_cons x hpat htrue
        rw [hdrop] at h; rw [this] at h; exact Bool.noConfusion h
      rw [ih post h']

theorem splitFirst_eq_none_of_not_occursB {pat s : List Char}
    (h : occursB pat s = false) : splitFirst pat s = Option.none := by
  unfold occursB at h
  cases hm : splitFirst pat s with
  | none => rfl
  | some pq => rw [hm] at h; simp at h

/-- Removal of every (non-overlapping, leftmost-first) `<think>...</think>`
segment, the embedding of `re.sub(r'<think>.*?</think>', '', s, flags=re.DOTALL)`. -/
def removeThink (s : List Char) : List Char :=
  match h1 : splitFirst thinkOpen s with
  | Option.none => s
  | some (pre, rest) =>
    match h2 : splitFirst thinkClose rest with
    | Option.none => s
    | some (_, post) => pre ++ removeThink post
termination_by s.length
decreasing_by
  have e1 := splitFirst_eq_append h1
  have e2 := splitFirst_eq_append h2
  subst e1; subst e2
  simp [thinkOpen, thinkClose]
  omega

/-- Characters stripped by Python's `str.strip()` (the ASCII whitespace set). -/
def isPySpace (c : Char) : Bool :=
  c = ' ' || c = '\t' || c = '\n' || c = '\r' || c = '\x0b' || c = '\x0c'

/-- Python `str.strip()`: drop leading and trailing whitespace. -/
def pyStrip (s : List Char) : List Char :=
  ((s.dropWhile isPySpace).reverse.dropWhile isPySpace).reverse

/-- The user-facing answer extracted from the raw model output
(main.py line 228): remove reasoning segments, then strip whitespace. -/
def extractAnswer (raw : List Char) : List Char :=
  pyStrip (removeThink raw)

theorem removeThink_of_no_open {s : List Char}
    (h : splitFirst thinkOpen s = Option.none) : removeThink s = s := by
  rw [removeThink.eq_def]
  split
  · rfl
  · simp_all

theorem removeThink_of_no_close {s pre rest : List Char}
    (h1 : splitFirst thinkOpen s = some (pre, rest))
    (h2 : splitFirst thinkClose rest = Option.none) : removeThink s = s := by
  rw [removeThink.eq_def]
  split
  · rfl
  · split
    · rfl
    · simp_all

/-- One removal step of `re.sub`: with the displayed occurrence leftmost
(no earlier start marker, no earlier end marker after it), the whole
`<think>...</think>` span is deleted and scanning continues after it. -/
theorem removeThink_step (pre mid post : List Char)
    (h1 : occursB thinkOpen ((pre ++ thinkOpen).dropLast) = false)
    (h2 : occursB thinkClose ((mid ++ thinkClose).dropLast) = false) :
    removeThink (pre ++ thinkOpen ++ mid ++ thinkClose ++ post)
      = pre ++ removeThink post := by
  have hop : thinkOpen ≠ [] := by simp [thinkOpen]
  have hcl : thinkClose ≠ [] := by simp [thinkClose]
  have e1 : splitFirst thinkOpen (pre ++ thinkOpen ++ (mid ++ thinkClose ++ post))
      = some (pre, mid ++ thinkClose ++ post) := splitFirst_at hop pre _ h1
  have e2 : splitFirst thinkClose (mid ++ thinkClose ++ post)
      = some (mid, post) := splitFirst_at hcl mid post h2
  rw [show pre ++ thinkOpen ++ mid ++ thinkClose ++ post
      = pre ++ thinkOpen ++ (mid ++ thinkClose ++ post) by simp]
  rw [removeThink.eq_def]
  split
  · simp_all
  · split
    · simp_all
    · simp_all

/-! ## Conversation Engine (main.py lines 175-230, 333-355)

The external effects of `generate_chat_response` — the `ollama.chat` call —
are passed in as an explicit oracle `infer : ChatRequest → Except String String`
(`Except.error e` models any raised exception with message `e`, `Except.ok raw`
models a reply whose `message.content` is `raw`).
-/

/-- One transcript entry `{"role": ..., "content": ...}`. -/
structure Turn where
  role : String
  content : String
deriving DecidableEq, Repr

/-- The argument of `ollama.chat`: model identifier plus ordered messages. -/
structure ChatRequest where
  model : String
  messages : List Turn
deriving DecidableEq, Repr

/-- One entry of `st.session_state.web_context`: `{'source': ..., 'content': ...}`
(main.py lines 163-166). `content` is kept as a character list so that the
1500-character truncation is the Python string slice. -/
structure ResearchExcerpt where
  source : String
  content : List Char
deriving DecidableEq, Repr

/-- Rendering of a `PyVal` inside an f-string.  The claim-relevant values are
strings (rendered as themselves) and `None` (rendered `"None"`). -/
def pvRender : PyVal → String
  | PyVal.str s => s
  | PyVal.pnone => "None"
  | PyVal.num n => toString n
  | PyVal.strList l => toString l

/-- Python `', '.join(...)` applied to a list-of-strings value; the code only
ever joins `style_titles`, which is a list of strings. -/
def pvJoin (sep : String) : PyVal → String
  | PyVal.strList l => String.intercalate sep l
  | _ => ""

/-- Embedding of `build_chat_context` (main.py lines 175-201): the fixed
section headers, the defaulted artist/artwork fields, and one numbered block
per research excerpt (or the fixed sentinel when there are none), joined
with newlines. -/
def build_chat_context (artist artwork : Dict) (web_context : List ResearchExcerpt) : String :=
  let context_parts : List String :=
    ["## Artist Information:",
     "Name: " ++ pvRender (dictGetD artist "title" (PyVal.str "Unknown")),
     "Lifespan: " ++ pvRender (dictGetD artist "birth_date" (PyVal.str "Unknown")) ++ " - "
       ++ pvRender (dictGetD artist "death_date" (PyVal.str "Unknown")),
     "Description: " ++ pvRender (dictGetD artist "description" (PyVal.str "No description available")),
     "\n## Artwork Details:",
     "Title: " ++ pvRender (dictGetD artwork "title" (PyVal.str "Untitled")),
     "Date: " ++ pvRender (dictGetD artwork "date_display" (PyVal.str "Unknown")),
     "Medium: " ++ pvRender (dictGetD artwork "medium_display" (PyVal.str "Unknown")),
     "Dimensions: " ++ pvRender (dictGetD artwork "dimensions" (PyVal.str "N/A")),
     "Styles: " ++ pvJoin ", " (dictGetD artwork "style_titles" (PyVal.strList [])),
     "\n## Web Research Context:"]
  let research_parts : List String :=
    if web_context.isEmpty then
      ["No additional web context found."]
    else
      (List.enumFrom 1 web_context).flatMap fun p =>
        ["### Source " ++ toString p.1 ++ ": " ++ p.2.source, String.mk p.2.content]
  String.intercalate "\n" (context_parts ++ research_parts)

/-- The system-prompt f-string of `generate_chat_response` (main.py lines 207-216). -/
def system_prompt (context : String) : String :=
  "You are an art history expert. First think step-by-step between <think> tags, \n    then provide a final answer between </think> tags. Use this context:\n    "
    ++ context
    ++ "\n\n    Guidelines:\n    1. Be concise but informative\n    2. Cite web sources when referencing information gleaned from them\n    3. If you don\x27t know, offer something the research does tell you\n    4. Explain technical terms clearly\n    5. If unsure, say \x27I don\x27t have enough information\x27"

/-- The session state read by the chat code path: the configured model, the
selected artist and artwork dicts, the research excerpts, and the transcript. -/
structure SessionChat where
  selected_model : String
  selected_artist : Dict
  selected_artwork : Dict
  web_context : List ResearchExcerpt
  messages : List Turn
deriving DecidableEq, Repr

/-- The request `generate_chat_response` hands to `ollama.chat`
(main.py lines 219-225): exactly a system message built from the assembled
context plus the single latest user message. -/
def chatRequest (st : SessionChat) (prompt : String) : ChatRequest :=
  ⟨st.selected_model,
   [⟨"system", system_prompt (build_chat_context st.selected_artist st.selected_artwork st.web_context)⟩,
    ⟨"user", prompt⟩]⟩

/-- Embedding of `generate_chat_response` (main.py lines 204-230): call the
inference oracle; on success strip the reasoning segments and surrounding
whitespace; on any exception return the error-description string. -/
def generate_chat_response (st : SessionChat) (prompt : String)
    (infer : ChatRequest → Except String String) : String :=
  match infer (chatRequest st prompt) with
  | Except.ok full_response => String.mk (extractAnswer full_response.data)
  | Except.error e => "Error generating response: " ++ e

/-- Embedding of the turn handling in `display_chat_interface`
(main.py lines 343-355): append the user turn, generate the reply, append
the assistant turn; the result is the new transcript. -/
def submitTurn (st : SessionChat) (prompt : String)
    (infer : ChatRequest → Except String String) : List Turn :=
  (st.messages ++ [⟨"user", prompt⟩]) ++ [⟨"assistant", generate_chat_response st prompt infer⟩]

/-- C1: for every raw model output containing a well-formed
`<think>...</think>` segment (neither marker occurs confusingly earlier, and
no further start marker occurs after the segment), the assistant reply
produced by `generate_chat_response` excludes the segment's inner text and
both marker tokens: only the text outside the segment, whitespace-trimmed,
is returned. -/
theorem C1_think_segment_removed (st : SessionChat) (prompt : String)
    (pre mid post : List Char)
    (h1 : occursB thinkOpen ((pre ++ thinkOpen).dropLast) = false)
    (h2 : occursB thinkClose ((mid ++ thinkClose).dropLast) = false)
    (h3 : occursB thinkOpen post = false) :
    generate_chat_response st prompt
        (fun _ => Except.ok (String.mk (pre ++ thinkOpen ++ mid ++ thinkClose ++ post)))
      = String.mk (pyStrip (pre ++ post)) := by
  show String.mk (extractAnswer (String.mk (pre ++ thinkOpen ++ mid ++ thinkClose ++ post)).data)
      = String.mk (pyStrip (pre ++ post))
  show String.mk (pyStrip (removeThink (pre ++ thinkOpen ++ mid ++ thinkClose ++ post)))
      = String.mk (pyStrip (pre ++ post))
  rw [removeThink_step pre mid post h1 h2,
    removeThink_of_no_open (splitFirst_eq_none_of_not_occursB h3)]

theorem C1_witness :
    generate_chat_response ⟨"deepseek-r1:7b", [], [], [], []⟩ "q"
        (fun _ => Except.ok (String.mk
          (['O', 'k', '.', ' '] ++ thinkOpen ++ ['h', 'm', '\n', 'm'] ++ thinkClose
            ++ [' ', 'A', 'n', 's', 'w', 'e', 'r'])))
      = String.mk (pyStrip (['O', 'k', '.', ' '] ++ [' ', 'A', 'n', 's', 'w', 'e', 'r'])) :=
  C1_think_segment_removed ⟨"deepseek-r1:7b", [], [], [], []⟩ "q"
    ['O', 'k', '.', ' '] ['h', 'm', '\n', 'm'] [' ', 'A', 'n', 's', 'w', 'e', 'r']
    (by decide) (by decide) (by decide)

/-- C3 counterexample: on a raw output with two `<think>...</think>` segments
the code removes BOTH (Python `re.sub` replaces every non-overlapping match),
so the second segment's inner text `y` does not remain in the reply, contrary
to the claim that only the first segment is removed. -/
theorem C3_counterexample :
    extractAnswer (String.data "a<think>x</think>b<think>y</think>c") = String.data "abc"
      ∧ occursB ['y'] (extractAnswer (String.data "a<think>x</think>b<think>y</think>c")) = false := by
  have h1 := removeThink_step ['a'] ['x']
    (['b'] ++ thinkOpen ++ ['y'] ++ thinkClose ++ ['c']) (by decide) (by decide)
  have h2 := removeThink_step ['b'] ['y'] ['c'] (by decide) (by decide)
  have h3 : removeThink ['c'] = ['c'] :=
    removeThink_of_no_open (splitFirst_eq_none_of_not_occursB (by decide))
  constructor
  · show pyStrip (removeThink (['a'] ++ thinkOpen ++ ['x'] ++ thinkClose
        ++ (['b'] ++ thinkOpen ++ ['y'] ++ thinkClose ++ ['c']))) = ['a', 'b', 'c']
    rw [h1, h2, h3]
    decide
  · show occursB ['y'] (pyStrip (removeThink (['a'] ++ thinkOpen ++ ['x'] ++ thinkClose
        ++ (['b'] ++ thinkOpen ++ ['y'] ++ thinkClose ++ ['c'])))) = false
    rw [h1, h2, h3]
    decide

/-- C3 amended: the reasoning-removal step removes EVERY maximal
marker-delimited segment (all non-overlapping matches, left to right), not
just the first one; here shown for a raw output with two well-formed
segments, whose reply is the trimmed concatenation of the text outside both. -/
theorem C3_amended_all_segments_removed (st : SessionChat) (prompt : String)
    (pre mid1 sep mid2 post : List Char)
    (h1 : occursB thinkOpen ((pre ++ thinkOpen).dropLast) = false)
    (h2 : occursB thinkClose ((mid1 ++ thinkClose).dropLast) = false)
    (h3 : occursB thinkOpen ((sep ++ thinkOpen).dropLast) = false)
    (h4 : occursB thinkClose ((mid2 ++ thinkClose).dropLast) = false)
    (h5 : occursB thinkOpen post = false) :
    generate_chat_response st prompt
        (fun _ => Except.ok (String.mk (pre ++ thinkOpen ++ mid1 ++ thinkClose
          ++ (sep ++ thinkOpen ++ mid2 ++ thinkClose ++ post))))
      = String.mk (pyStrip (pre ++ (sep ++ post))) := by
  show String.mk (pyStrip (removeThink (pre ++ thinkOpen ++ mid1 ++ thinkClose
      ++ (sep ++ thinkOpen ++ mid2 ++ thinkClose ++ post))))
    = String.mk (pyStrip (pre ++ (sep ++ post)))
  rw [removeThink_step pre mid1 (sep ++ thinkOpen ++ mid2 ++ thinkClose ++ post) h1 h2,
    removeThink_step sep mid2 post h3 h4,
    removeThink_of_no_open (splitFirst_eq_none_of_not_occursB h5)]

theorem C3_amended_witness :
    generate_chat_response ⟨"deepseek-r1:7b", [], [], [], []⟩ "q"
        (fun _ => Except.ok (String.mk (['a'] ++ thinkOpen ++ ['x'] ++ thinkClose
          ++ (['b'] ++ thinkOpen ++ ['y'] ++ thinkClose ++ ['c']))))
      = String.mk (pyStrip (['a'] ++ (['b'] ++ ['c']))) :=
  C3_amended_all_segments_removed ⟨"deepseek-r1:7b", [], [], [], []⟩ "q"
    ['a'] ['x'] ['b'] ['y'] ['c']
    (by decide) (by decide) (by decide) (by decide) (by decide)

/-- C4: when the raw model output has no `<think>` marker, or has a start
marker with no end marker after it, the removal is a no-op: the assistant
reply equals the raw output with only surrounding whitespace trimmed (a
dangling start marker is kept as-is). -/
theorem C4_no_marker_noop (st : SessionChat) (prompt : String) (raw : String)
    (h : occursB thinkOpen raw.data = false
      ∨ ∀ pre rest, splitFirst thinkOpen raw.data = some (pre, rest) →
          occursB thinkClose rest = false) :
    generate_chat_response st prompt (fun _ => Except.ok raw)
      = String.mk (pyStrip raw.data) := by
  show String.mk (pyStrip (removeThink raw.data)) = String.mk (pyStrip raw.data)
  cases h with
  | inl hno =>
    rw [removeThink_of_no_open (splitFirst_eq_none_of_not_occursB hno)]
  | inr hdangling =>
    cases hm : splitFirst thinkOpen raw.data with
    | none => rw [removeThink_of_no_open hm]
    | some pq =>
      obtain ⟨pre, rest⟩ := pq
      rw [removeThink_of_no_close hm
        (splitFirst_eq_none_of_not_occursB (hdangling pre rest hm))]

theorem C4_witness :
    generate_chat_response ⟨"deepseek-r1:7b", [], [], [], []⟩ "q"
        (fun _ => Except.ok (String.mk (['h', 'i', ' '] ++ thinkOpen ++ [' ', 'y', 'o'])))
      = String.mk (pyStrip (['h', 'i', ' '] ++ thinkOpen ++ [' ', 'y', 'o'])) :=
  C4_no_marker_noop ⟨"deepseek-r1:7b", [], [], [], []⟩ "q"
    (String.mk (['h', 'i', ' '] ++ thinkOpen ++ [' ', 'y', 'o']))
    (Or.inr (fun pre rest hm => by
      have hcomp : splitFirst thinkOpen
            (String.mk (['h', 'i', ' '] ++ thinkOpen ++ [' ', 'y', 'o'])).data
          = some (['h', 'i', ' '], [' ', 'y', 'o']) := by decide
      rw [hcomp] at hm
      simp at hm
      obtain ⟨h1, h2⟩ := hm
      subst h1
      subst h2
      decide))

/-- C5: when the inference call fails with any exception, the turn still
completes: the transcript after the failed turn is the prior transcript plus
exactly the user turn and an assistant turn whose content is the
error-description string embedding the failure reason. -/
theorem C5_inference_failure_transcript (st : SessionChat) (prompt e : String) :
    submitTurn st prompt (fun _ => Except.error e)
      = st.messages
        ++ [⟨"user", prompt⟩, ⟨"assistant", "Error generating response: " ++ e⟩] := by
  show (st.messages ++ [⟨"user", prompt⟩])
      ++ [⟨"assistant", generate_chat_response st prompt (fun _ => Except.error e)⟩] = _
  show (st.messages ++ [⟨"user", prompt⟩])
      ++ [⟨"assistant", "Error generating response: " ++ e⟩] = _
  simp

/-- C10: the request `generate_chat_response` sends to the inference endpoint
is exactly the system prompt built from the assembled context plus the single
latest user message; two sessions agreeing on model, artist, artwork and web
excerpts but with arbitrarily different earlier transcripts produce the same
request and (for any deterministic inference behavior) the same reply. -/
theorem C10_transcript_independence (s1 s2 : SessionChat) (prompt : String)
    (infer : ChatRequest → Except String String)
    (hm : s1.selected_model = s2.selected_model)
    (ha : s1.selected_artist = s2.selected_artist)
    (hw : s1.selected_artwork = s2.selected_artwork)
    (hc : s1.web_context = s2.web_context) :
    chatRequest s1 prompt = chatRequest s2 prompt
      ∧ chatRequest s1 prompt
        = ⟨s1.selected_model,
           [⟨"system", system_prompt (build_chat_context s1.selected_artist
              s1.selected_artwork s1.web_context)⟩, ⟨"user", prompt⟩]⟩
      ∧ generate_chat_response s1 prompt infer = generate_chat_response s2 prompt infer := by
  have hreq : chatRequest s1 prompt = chatRequest s2 prompt := by
    unfold chatRequest
    rw [hm, ha, hw, hc]
  refine ⟨hreq, rfl, ?_⟩
  unfold generate_chat_response
  rw [hreq]

theorem C10_witness :
    chatRequest ⟨"deepseek-r1:7b", [("title", PyVal.str "Claude Monet")], [], [], []⟩ "q"
      = chatRequest ⟨"deepseek-r1:7b", [("title", PyVal.str "Claude Monet")], [], [],
          [⟨"user", "earlier question"⟩, ⟨"assistant", "earlier answer"⟩]⟩ "q" :=
  (C10_transcript_independence
    ⟨"deepseek-r1:7b", [("title", PyVal.str "Claude Monet")], [], [], []⟩
    ⟨"deepseek-r1:7b", [("title", PyVal.str "Claude Monet")], [], [],
      [⟨"user", "earlier question"⟩, ⟨"assistant", "earlier answer"⟩]⟩
    "q" (fun _ => Except.error "unreachable") rfl rfl rfl rfl).1

/-! ## Catalog Client (main.py lines 38-57 and 114-136)

Each operation wraps one HTTP GET whose outcome is passed in explicitly:
`Except.error ()` models a raised `requests.RequestException` (the only
exception class the code catches), `Except.ok data` models a 2xx response
whose parsed JSON `data` member is the given dict. -/

/-- Embedding of `get_artist_details` (main.py lines 38-57): on success a dict
with all five fields, each defaulted via `.get` when absent from the
response; on a transport/HTTP error the two-field dict
`{'id': artist_id, 'title': 'Unknown Artist'}`. -/
def get_artist_details (artist_id : PyVal) (r : Except Unit Dict) : Dict :=
  match r with
  | Except.ok data =>
    [("id", dictGetD data "id" artist_id),
     ("title", dictGetD data "title" (PyVal.str "Unknown Artist")),
     ("birth_date", dictGetD data "birth_date" (PyVal.str "Unknown")),
     ("death_date", dictGetD data "death_date" (PyVal.str "Unknown")),
     ("description", dictGetD data "description" (PyVal.str "No description available"))]
  | Except.error _ => [("id", artist_id), ("title", PyVal.str "Unknown Artist")]

/-- Embedding of `get_artwork_details` (main.py lines 114-136): on success a
dict with all eight fields defaulted via `.get`; on a transport/HTTP error
the empty dict `{}`. -/
def get_artwork_details (artwork_id : PyVal) (r : Except Unit Dict) : Dict :=
  match r with
  | Except.ok data =>
    [("id", dictGetD data "id" artwork_id),
     ("title", dictGetD data "title" (PyVal.str "Untitled")),
     ("artist_title", dictGetD data "artist_title" (PyVal.str "Unknown")),
     ("date_display", dictGetD data "date_display" (PyVal.str "Unknown date")),
     ("medium_display", dictGetD data "medium_display" (PyVal.str "Unknown medium")),
     ("dimensions", dictGetD data "dimensions" (PyVal.str "N/A")),
     ("image_id", (dictGet data "image_id").getD PyVal.pnone),
     ("style_titles", dictGetD data "style_titles" (PyVal.strList []))]
  | Except.error _ => []

/-- Embedding of the artwork-selection flow in `display_artwork_analysis`
(main.py lines 305-309): store the fetched details, then read
`selected_artwork['title']` and `selected_artist['title']` by Python
subscript (which raises `KeyError` on a missing key) to call
`web_research_artwork`.  The result is the pair of arguments passed to the
web research step, or the exception that escaped. -/
def selectArtworkFlow (selected_artist : Dict) (artwork_id : PyVal)
    (r : Except Unit Dict) : Except String (PyVal × PyVal) := do
  let selected_artwork := get_artwork_details artwork_id r
  let artworkTitle ← pySubscript selected_artwork "title"
  let artistTitle ← pySubscript selected_artist "title"
  Except.ok (artworkTitle, artistTitle)

/-- C2 (code bug): when `get_artwork_details` degrades to the empty dict on a
catalog error, the selection flow raises `KeyError: title` at
`selected_artwork['title']` instead of completing with a degraded result;
on a successful fetch the flow does complete. -/
theorem C2_flow_raises_on_degraded_details (selected_artist : Dict) (artwork_id : PyVal)
    (hartist : dictGet selected_artist "title" = some (PyVal.str "Unknown Artist")) :
    selectArtworkFlow selected_artist artwork_id (Except.error ())
        = Except.error "KeyError: title"
      ∧ ∀ data, (selectArtworkFlow selected_artist artwork_id (Except.ok data)).isOk = true := by
  constructor
  · rfl
  · intro data
    show (do
        let artworkTitle ← pySubscript (get_artwork_details artwork_id (Except.ok data)) "title"
        let artistTitle ← pySubscript selected_artist "title"
        Except.ok (artworkTitle, artistTitle) : Except String (PyVal × PyVal)).isOk = true
    have htit : pySubscript (get_artwork_details artwork_id (Except.ok data)) "title"
        = Except.ok (dictGetD data "title" (PyVal.str "Untitled")) := by
      show pySubscript
        [("id", dictGetD data "id" artwork_id),
         ("title", dictGetD data "title" (PyVal.str "Untitled")),
         ("artist_title", dictGetD data "artist_title" (PyVal.str "Unknown")),
         ("date_display", dictGetD data "date_display" (PyVal.str "Unknown date")),
         ("medium_display", dictGetD data "medium_display" (PyVal.str "Unknown medium")),
         ("dimensions", dictGetD data "dimensions" (PyVal.str "N/A")),
         ("image_id", (dictGet data "image_id").getD PyVal.pnone),
         ("style_titles", dictGetD data "style_titles" (PyVal.strList []))] "title" = _
      simp [pySubscript, dictGet]
    rw [htit]
    show (do
        let artistTitle ← pySubscript selected_artist "title"
        Except.ok (dictGetD data "title" (PyVal.str "Untitled"), artistTitle)
        : Except String (PyVal × PyVal)).isOk = true
    rw [show pySubscript selected_artist "title" = Except.ok (PyVal.str "Unknown Artist") by
      simp [pySubscript, hartist]]
    rfl

theorem C2_witness :
    selectArtworkFlow (get_artist_details (PyVal.num 1) (Except.error ())) (PyVal.num 2)
        (Except.error ())
      = Except.error "KeyError: title" :=
  (C2_flow_raises_on_degraded_details
    (get_artist_details (PyVal.num 1) (Except.error ())) (PyVal.num 2) (by decide)).1

/-- C7 counterexample: on a transport/HTTP error `get_artist_details` returns
only `{'id': ..., 'title': 'Unknown Artist'}`; the remaining fields
(`birth_date`, `death_date`, `description`) are ABSENT from the returned
dict, not present with their default values as the claim states. -/
theorem C7_counterexample :
    get_artist_details (PyVal.num 7) (Except.error ())
        = [("id", PyVal.num 7), ("title", PyVal.str "Unknown Artist")]
      ∧ dictGet (get_artist_details (PyVal.num 7) (Except.error ())) "birth_date"
        = Option.none := by
  constructor
  · rfl
  · decide

/-- C7 amended: `get_artist_details` never raises past its boundary for
transport/HTTP errors; on such an error it returns exactly
`{'id': artist_id, 'title': 'Unknown Artist'}`, with `birth_date`,
`death_date` and `description` absent (each read site defaults them later);
on success every response field that is missing is replaced by its
documented default value in the returned dict. -/
theorem C7_amended_error_shape (aid : PyVal) (data : Dict) :
    get_artist_details aid (Except.error ())
        = [("id", aid), ("title", PyVal.str "Unknown Artist")]
      ∧ dictGet (get_artist_details aid (Except.error ())) "birth_date" = Option.none
      ∧ dictGet (get_artist_details aid (Except.error ())) "death_date" = Option.none
      ∧ dictGet (get_artist_details aid (Except.error ())) "description" = Option.none
      ∧ (dictGet data "title" = Option.none →
          dictGet (get_artist_details aid (Except.ok data)) "title"
            = some (PyVal.str "Unknown Artist"))
      ∧ (dictGet data "birth_date" = Option.none →
          dictGet (get_artist_details aid (Except.ok data)) "birth_date"
            = some (PyVal.str "Unknown"))
      ∧ (dictGet data "death_date" = Option.none →
          dictGet (get_artist_details aid (Except.ok data)) "death_date"
            = some (PyVal.str "Unknown"))
      ∧ (dictGet data "description" = Option.none →
          dictGet (get_artist_details aid (Except.ok data)) "description"
            = some (PyVal.str "No description available")) := by
  refine ⟨rfl, ?_, ?_, ?_, ?_, ?_, ?_, ?_⟩
  · simp [get_artist_details, dictGet]
  · simp [get_artist_details, dictGet]
  · simp [get_artist_details, dictGet]
  · intro h; simp [get_artist_details, dictGet, dictGetD, h]
  · intro h; simp [get_artist_details, dictGet, dictGetD, h]
  · intro h; simp [get_artist_details, dictGet, dictGetD, h]
  · intro h; simp [get_artist_details, dictGet, dictGetD, h]

theorem C7_amended_witness :
    dictGet (get_artist_details (PyVal.num 7) (Except.ok [])) "birth_date"
      = some (PyVal.str "Unknown") :=
  ((((((C7_amended_error_shape (PyVal.num 7) []).2).2).2).2).2).1 rfl

/-! ## Web Research Collector (main.py lines 139-172)

The search call and each per-result fetch/parse are external effects, passed
in explicitly: the search outcome is `Except.error ()` (any exception during
the DDGS search, absorbed into `[]`) or the ordered result list; each result
carries its `href` and the outcome of fetching and extracting its page text
(`Except.error ()` models any exception inside the per-result `try`, which
the loop skips with `continue`). -/

/-- One search result together with the outcome of fetching it and extracting
its cleaned page text (`soup.get_text` after decomposing script/style/nav/
footer/header/iframe elements). -/
structure FetchResult where
  href : String
  fetched : Except Unit (List Char)
deriving Repr

/-- Embedding of `web_research_artwork` (main.py lines 139-172): on a search
failure, the empty list; otherwise one excerpt per successfully fetched
result, in search-rank order, each truncated to its first 1500 characters;
failed results are skipped. -/
def web_research_artwork (search : Except Unit (List FetchResult)) : List ResearchExcerpt :=
  match search with
  | Except.error _ => []
  | Except.ok results =>
    results.filterMap fun r =>
      match r.fetched with
      | Except.error _ => Option.none
      | Except.ok content => some ⟨r.href, content.take 1500⟩

/-- The per-result body of the collection loop, named for the statements below. -/
def excerptOf (r : FetchResult) : Option ResearchExcerpt :=
  match r.fetched with
  | Except.error _ => Option.none
  | Except.ok content => some ⟨r.href, content.take 1500⟩

theorem web_research_artwork_ok (results : List FetchResult) :
    web_research_artwork (Except.ok results) = results.filterMap excerptOf := by
  unfold web_research_artwork excerptOf
  rfl

/-- C8: a per-result fetch/parse failure only skips that result (the
collection is the concatenation of what the surrounding results produce);
the output never has more entries than there are search results, hence at
most 3 of them; and with 3 results of which the middle fetch fails the output
is exactly the 2 excerpts of the successes, in rank order. -/
theorem C8_partial_collection (pre post : List FetchResult) (href h1 h2 h3 : String)
    (c1 c3 : List Char) (results : List FetchResult)
    (hlen : results.length ≤ 3) :
    web_research_artwork (Except.ok (pre ++ ⟨href, Except.error ()⟩ :: post))
        = web_research_artwork (Except.ok pre) ++ web_research_artwork (Except.ok post)
      ∧ (web_research_artwork (Except.ok results)).length ≤ 3
      ∧ web_research_artwork (Except.ok
          [⟨h1, Except.ok c1⟩, ⟨h2, Except.error ()⟩, ⟨h3, Except.ok c3⟩])
        = [⟨h1, c1.take 1500⟩, ⟨h3, c3.take 1500⟩]
      ∧ web_research_artwork (Except.error ()) = [] := by
  refine ⟨?_, ?_, ?_, rfl⟩
  · rw [web_research_artwork_ok, web_research_artwork_ok, web_research_artwork_ok]
    rw [List.filterMap_append]
    congr 1
  · rw [web_research_artwork_ok]
    exact le_trans (List.length_filterMap_le excerptOf results) hlen
  · rfl

theorem C8_witness :
    web_research_artwork (Except.ok
        [⟨"https://a.example", Except.ok ['A']⟩,
         ⟨"https://b.example", Except.error ()⟩,
         ⟨"https://c.example", Except.ok ['C']⟩])
      = [⟨"https://a.example", (['A'] : List Char).take 1500⟩,
         ⟨"https://c.example", (['C'] : List Char).take 1500⟩] :=
  (C8_partial_collection [] [] "u" "https://a.example" "https://b.example" "https://c.example"
    ['A'] ['C'] [] (by decide)).2.2.1

/-- C9: each successfully fetched result contributes an excerpt whose content
is exactly `content[:1500]`: for extracted text of at least 1500 characters
this is a 1500-character exact prefix (possibly cut mid-word), and extracted
text of at most 1500 characters is kept unchanged. -/
theorem C9_truncation (href : String) (content : List Char) (rest : List FetchResult) :
    web_research_artwork (Except.ok (⟨href, Except.ok content⟩ :: rest))
        = ⟨href, content.take 1500⟩ :: web_research_artwork (Except.ok rest)
      ∧ (1500 ≤ content.length →
          (content.take 1500).length = 1500
            ∧ content.take 1500 ++ content.drop 1500 = content)
      ∧ (content.length ≤ 1500 → content.take 1500 = content) := by
  refine ⟨?_, ?_, ?_⟩
  · rw [web_research_artwork_ok, web_research_artwork_ok, List.filterMap_cons]
    rfl
  · intro h
    exact ⟨by rw [List.length_take]; omega, List.take_append_drop 1500 content⟩
  · intro h
    exact List.take_of_length_le h

theorem C9_witness :
    web_research_artwork (Except.ok [⟨"https://a.example", Except.ok (List.replicate 5000 'x')⟩])
        = [⟨"https://a.example", (List.replicate 5000 'x').take 1500⟩]
      ∧ ((List.replicate 5000 'x').take 1500).length = 1500
      ∧ (List.replicate 5000 'x').take 1500 ++ (List.replicate 5000 'x').drop 1500
          = List.replicate 5000 'x' := by
  have h := C9_truncation "https://a.example" (List.replicate 5000 'x') []
  have hlen : 1500 ≤ (List.replicate 5000 'x').length := by
    rw [List.length_replicate]
    omega
  exact ⟨h.1, (h.2.1 hlen).1, (h.2.1 hlen).2⟩

/-! ## Artwork listing pagination (main.py lines 271-330)

`get_artist_artworks` absorbs transport errors into
`{'artworks': [], 'pagination': {}}`; a fetched response is modelled with its
possibly-missing pagination fields as `Option Nat` (`.get` defaults them
to 1).  The fetch is passed in as a function from page number to response. -/

/-- The `pagination` member of a catalog response; `none` models a missing
`current_page`/`total_pages` key (as in the `{}` produced on error). -/
structure PagInfo where
  current_page : Option Nat
  total_pages : Option Nat
deriving DecidableEq, Repr

/-- The value of `get_artist_artworks`: the artworks of one page plus the
pagination dict. -/
structure ArtworksResponse where
  artworks : List Dict
  pagination : PagInfo
deriving DecidableEq, Repr

/-- `pagination.get('current_page', 1) < pagination.get('total_pages', 1)`
(main.py lines 285 and 323-324). -/
def hasMoreFrom (p : PagInfo) : Bool :=
  decide (p.current_page.getD 1 < p.total_pages.getD 1)

/-- The pagination-relevant session state: accumulated artwork list, current
page number, and the `has_more_artworks` flag. -/
structure BrowseState where
  artworks_list : List Dict
  artworks_current_page : Nat
  has_more_artworks : Bool
deriving DecidableEq, Repr

/-- Embedding of the initial page load (main.py lines 281-285): when the list
is empty and `has_more_artworks` holds, fetch the current page, store its
artworks and recompute `has_more_artworks` from the reported pagination. -/
def initialLoad (st : BrowseState) (fetch : Nat → ArtworksResponse) : BrowseState :=
  if st.artworks_list.isEmpty && st.has_more_artworks then
    let response := fetch st.artworks_current_page
    ⟨response.artworks, st.artworks_current_page, hasMoreFrom response.pagination⟩
  else st

/-- Embedding of the "Load More Artworks" action (main.py lines 313-328): the
button exists only while the list is nonempty and `has_more_artworks` holds;
it increments the page, fetches it, and either appends the new artworks and
recomputes `has_more_artworks` from the reported pagination, or — when the
fetched page has no artworks — sets `has_more_artworks` to `false`. -/
def loadMoreAction (st : BrowseState) (fetch : Nat → ArtworksResponse) : BrowseState :=
  if !st.artworks_list.isEmpty && st.has_more_artworks then
    let page := st.artworks_current_page + 1
    let response := fetch page
    if !response.artworks.isEmpty then
      ⟨st.artworks_list ++ response.artworks, page, hasMoreFrom response.pagination⟩
    else
      ⟨st.artworks_list, page, false⟩
  else st

/-- A three-page catalog: every page nonempty, `total_pages = 3`. -/
def fetchThreePages : Nat → ArtworksResponse :=
  fun p => ⟨[[("page", PyVal.num p)]], ⟨some p, some 3⟩⟩

/-- C6 counterexample: a "load more" fetch that reports
`current_page = 2 < total_pages = 3` but returns no artworks sets
`has_more_artworks` to `false`, so after this page fetch `has_more` is NOT
equivalent to `current_page < total_pages` as reported by the catalog. -/
theorem C6_counterexample :
    (loadMoreAction ⟨[[("id", PyVal.num 1)]], 1, true⟩
        (fun _ => ⟨[], ⟨some 2, some 3⟩⟩)).has_more_artworks = false
      ∧ ((2 : Nat) < 3) := by
  constructor
  · rfl
  · decide

/-- C6 amended: after an initial load, and after every "load more" fetch that
returns a nonempty artwork list, `has_more` equals `current_page <
total_pages` as reported (missing fields defaulting to 1); a "load more"
fetch returning no artworks forces `has_more := false` regardless of the
reported pagination; once `has_more` is false the action is a no-op; and in
the `total_pages = 3` scenario `has_more` is true after loading pages 1 and
2, false after page 3, after which a further "load more" changes nothing. -/
theorem C6_amended_pagination :
    (∀ (st : BrowseState) (fetch : Nat → ArtworksResponse),
        st.artworks_list.isEmpty = false → st.has_more_artworks = true →
        (fetch (st.artworks_current_page + 1)).artworks.isEmpty = false →
        (loadMoreAction st fetch).has_more_artworks
          = hasMoreFrom (fetch (st.artworks_current_page + 1)).pagination)
      ∧ (∀ (st : BrowseState) (fetch : Nat → ArtworksResponse),
          st.artworks_list.isEmpty = false → st.has_more_artworks = true →
          (fetch (st.artworks_current_page + 1)).artworks.isEmpty = true →
          (loadMoreAction st fetch).has_more_artworks = false)
      ∧ (∀ (st : BrowseState) (fetch : Nat → ArtworksResponse),
          st.has_more_artworks = false → loadMoreAction st fetch = st)
      ∧ (∀ (st : BrowseState) (fetch : Nat → ArtworksResponse),
          st.artworks_list.isEmpty = true → st.has_more_artworks = true →
          (initialLoad st fetch).has_more_artworks
            = hasMoreFrom (fetch st.artworks_current_page).pagination)
      ∧ (initialLoad ⟨[], 1, true⟩ fetchThreePages).has_more_artworks = true
      ∧ (loadMoreAction (initialLoad ⟨[], 1, true⟩ fetchThreePages)
          fetchThreePages).has_more_artworks = true
      ∧ (loadMoreAction (loadMoreAction (initialLoad ⟨[], 1, true⟩ fetchThreePages)
          fetchThreePages) fetchThreePages).has_more_artworks = false
      ∧ loadMoreAction (loadMoreAction (loadMoreAction (initialLoad ⟨[], 1, true⟩
            fetchThreePages) fetchThreePages) fetchThreePages) fetchThreePages
        = loadMoreAction (loadMoreAction (initialLoad ⟨[], 1, true⟩ fetchThreePages)
            fetchThreePages) fetchThreePages := by
  refine ⟨?_, ?_, ?_, ?_, by decide, by decide, by decide, by decide⟩
  · intro st fetch h1 h2 h3
    simp [loadMoreAction, h1, h2, h3]
  · intro st fetch h1 h2 h3
    simp [loadMoreAction, h1, h2, h3]
  · intro st fetch h
    simp [loadMoreAction, h]
  · intro st fetch h1 h2
    simp [initialLoad, h1, h2]

theorem C6_witness :
    (loadMoreAction ⟨[[("page", PyVal.num 1)]], 1, true⟩ fetchThreePages).has_more_artworks
      = hasMoreFrom (fetchThreePages 2).pagination :=
  C6_amended_pagination.1 ⟨[[("page", PyVal.num 1)]], 1, true⟩ fetchThreePages rfl rfl rfl
